import Mathlib

set_option maxHeartbeats 1600000

/-
A shallow embedding of the Caffe2 model importer (lib/Importer/Caffe2.cpp):
the argument dictionary, the tensor registry and weight materializer, the
name-to-node resolution cache, the per-operator lowering dispatcher and the
network assembler.  Protobuf file deserialization (loadProtoFile) is out of
scope: the embedding consumes already-decoded operator records, mirroring the
spec's scope.  Hard assertion failures, llvm_unreachable and out-of-range
protobuf field accesses in the source abort the whole import; they are
modelled as `Except.error` values of `LoadErr`.
-/

/-- Scalar carrier for the float payloads of the imported model.  The importer
never computes with the stored floats: it only copies them between tensors and
node payloads, so they are modelled as rationals, which have decidable
equality and a zero for the zero-fill path. -/
abbrev FloatVal := Rat

/-- 32-bit signed wrap-around, modelling a C++ conversion to `int`. -/
def toI32 (i : Int) : Int := (i + 2 ^ 31) % 2 ^ 32 - 2 ^ 31

/-- Conversion of a signed value to a 32-bit `unsigned` value. -/
def toU32 (i : Int) : Nat := (i % 2 ^ 32).toNat

/-- Conversion of a signed value to a 64-bit `size_t` value. -/
def toSize (i : Int) : Nat := (i % 2 ^ 64).toNat

/-- `caffe2::Argument`: a named, loosely typed value.  The protobuf message
has optional scalar fields `i` (int64), `f` (float), `s` (string) and repeated
fields `ints` and `floats`; `has_i`/`has_f`/`has_s` is presence of the
corresponding option. -/
structure Argument where
  name : String
  i : Option Int := none
  f : Option FloatVal := none
  s : Option String := none
  ints : List Int := []
  floats : List FloatVal := []
deriving DecidableEq, Repr

/-- `caffe2::OperatorDef`: kind tag, ordered input and output names, optional
operator name and the flat argument list. -/
structure OperatorDef where
  type : String
  name : String := ""
  input : List String := []
  output : List String := []
  arg : List Argument := []
deriving DecidableEq, Repr

/-- `caffe2::NetDef`: the ordered operator list and the declared external
output names. -/
structure NetDef where
  op : List OperatorDef := []
  external_output : List String := []
deriving DecidableEq, Repr

/-- Failure modes of the import.  Each corresponds to a hard abort in the
source: an `assert`/`GLOW_ASSERT`, an `llvm_unreachable`, a null-pointer
dereference of an absent dictionary entry, or an out-of-range access of a
repeated protobuf field. -/
inductive LoadErr where
  | MissingArgument (name : String)
  | TypeMismatch (name : String)
  | ShapeMismatch
  | UnknownTensor (name : String)
  | UnknownNode (name : String)
  | MissingExternalOutput
  | InvalidOrder (order : String)
  | UnsupportedPadding
  | IndexOutOfRange
  | InvalidInitList
deriving DecidableEq, Repr

/-- Element kinds of tensors.  The translated code only ever mentions
`ElemKind::FloatTy`. -/
inductive ElemKind where
  | FloatTy
deriving DecidableEq, Repr

/-- `VisibilityKind` of a created variable node. -/
inductive VisibilityKind where
  | Public
  | Private
deriving DecidableEq, Repr

/-- `Variable::TrainKind` of a created variable node. -/
inductive TrainKind where
  | None
  | Broadcast
deriving DecidableEq, Repr

/-- A materialized constant tensor: element kind, ordered dimension list and
contiguous row-major value buffer. -/
structure Tensor where
  elemKind : ElemKind
  dims : List Nat
  data : List FloatVal
deriving DecidableEq, Repr

/-- Product of a dimension list, the flat size of a tensor buffer. -/
def listProd (l : List Nat) : Nat := l.foldl (· * ·) 1

/-- Row-major coordinates of linear index `i` in shape `dims`. -/
def unflattenIndex (dims : List Nat) (i : Nat) : List Nat :=
  match dims with
  | [] => []
  | _ :: rest =>
    let s := listProd rest
    (i / s) :: unflattenIndex rest (i % s)

/-- Row-major linear index of coordinates `coords` in shape `dims`. -/
def flattenIndex (dims : List Nat) (coords : List Nat) : Nat :=
  match dims, coords with
  | _ :: ds, c :: cs => c * listProd ds + flattenIndex ds cs
  | _, _ => 0

/-- `Tensor::transpose(dest, shuffle)`: dimension `i` of the destination is
dimension `shuffle[i]` of the source, and the destination element at
coordinates `x` is the source element at coordinates `y` with
`y[shuffle[k]] = x[k]`. -/
def Tensor.transpose (t : Tensor) (shuffle : List Nat) : Tensor :=
  let newDims := shuffle.map (fun i => t.dims.getD i 0)
  let newData := (List.range (listProd newDims)).map (fun j =>
    let coords := unflattenIndex newDims j
    let srcCoords := (shuffle.zip coords).foldl (fun acc p => acc.set p.1 p.2)
      (List.replicate t.dims.length 0)
    t.data.getD (flattenIndex t.dims srcCoords) 0)
  ⟨t.elemKind, newDims, newData⟩

/-- Source `loadInt`: asserts `has_i` ("Node has no Int value") and returns
the stored int64 converted to the `int` return type. -/
def loadInt (arg : Argument) : Except LoadErr Int :=
  match arg.i with
  | some v => .ok (toI32 v)
  | none => .error (.TypeMismatch arg.name)

/-- Source `loadFloat`: asserts `has_f` ("Node has no float value"). -/
def loadFloat (arg : Argument) : Except LoadErr FloatVal :=
  match arg.f with
  | some v => .ok v
  | none => .error (.TypeMismatch arg.name)

/-- Source `loadStr`: asserts `has_s` ("Node has no str value"). -/
def loadStr (arg : Argument) : Except LoadErr String :=
  match arg.s with
  | some v => .ok v
  | none => .error (.TypeMismatch arg.name)

/-- Source `getShape`: the `ints` of the argument pushed into a
`std::vector<size_t>` (int64 to size_t conversion per element). -/
def getShape (arg : Argument) : List Nat := arg.ints.map toSize

/-- Source `loadArgumentMap`: `dict[arg.name()] = &arg` over the flat list, so
a later duplicate name overwrites an earlier one. -/
def loadArgumentMap (op : OperatorDef) : String → Option Argument :=
  op.arg.foldl (fun dict a => fun n => if n = a.name then some a else dict n)
    (fun _ => none)

/-- A call site of the form `loadInt(dict["name"])`: when the name is absent,
`operator[]` of the map yields a null pointer whose dereference inside the
accessor aborts.  Modelled as the `MissingArgument` failure. -/
def getArg (dict : String → Option Argument) (n : String) :
    Except LoadErr Argument :=
  match dict n with
  | some a => .ok a
  | none => .error (.MissingArgument n)

/-- Source `getChannel`: the "order" field translated to a channel number,
default "NCHW"; `GLOW_ASSERT` on any other order string. -/
def getChannel (dict : String → Option Argument) : Except LoadErr Nat := do
  let order ← match dict "order" with
    | some a => loadStr a
    | none => .ok "NCHW"
  if order = "NHWC" then .ok 3
  else if order = "NCHW" then .ok 1
  else .error (.InvalidOrder order)

/-- The kinds of graph nodes the importer creates through the host factory
contract, with the inputs as node ids and the payloads it copies in. -/
inductive NodeKind where
  | var (elemKind : ElemKind) (vis : VisibilityKind) (train : TrainKind)
      (payload : List FloatVal)
  | relu (input : Nat)
  | transpose (input : Nat) (shuffle : List Nat)
  | conv (input filter bias : Nat) (kernel : Nat) (stride pad : Int)
      (group : Nat)
  | poolMax (input : Nat) (kernel : Nat) (stride pad : Int)
  | poolAvg (input : Nat) (kernel : Nat) (stride pad : Int)
  | batchNorm (input : Nat) (channel : Nat) (epsilon : FloatVal)
      (scale bias mean variance : List FloatVal)
  | concat (inputs : List Nat) (channel : Nat)
  | add (lhs rhs : Nat)
  | mul (lhs rhs : Nat)
  | softmax (input expected : Nat)
  | reshape (input : Nat) (shape : List Nat)
  | fullyConnected (input weights bias : Nat)
  | lrn (input : Nat) (halfWindowSize : Nat) (alpha beta k : FloatVal)
  | broadcast (input : Nat) (targetDims : List Nat) (axis : Int)
  | channelShuffle (input : Nat) (group kernel : Nat)
  | squeeze (input : Nat) (dims : List Nat)
  | save (input : Nat)
deriving DecidableEq, Repr

/-- An opaque node handle: identity (allocation order), name, kind and the
dimension list the host graph reports for it. -/
structure GNode where
  id : Nat
  name : String
  kind : NodeKind
  dims : List Nat
deriving DecidableEq, Repr

/-- The host graph: the list of created nodes in creation order. -/
structure Graph where
  nodes : List GNode
  nextId : Nat
deriving DecidableEq, Repr

/-- One factory call: allocate a fresh node. -/
def Graph.alloc (g : Graph) (name : String) (k : NodeKind) (dims : List Nat) :
    GNode × Graph :=
  let n : GNode := ⟨g.nextId, name, k, dims⟩
  (n, ⟨g.nodes ++ [n], g.nextId + 1⟩)

/-- Modelled from the spec: the dimension list of a transpose node created
through the host factory contract (create-transpose(input, permutation), not
in src/) is the permutation of its input's dimensions. -/
def permDims (dims : List Nat) (shuffle : List Nat) : List Nat :=
  shuffle.map (fun i => dims.getD i 0)

def NCHW2NHWC : List Nat := [0, 2, 3, 1]

def NHWC2NCHW : List Nat := [0, 3, 1, 2]

/-- Modelled from the spec: `calculateConvOutputDims` is declared in the host
graph library, which is not under src/; the spec gives the per-dimension
formula `(in + 2·pad − kernel)/stride + 1`. -/
def calculateConvOutputDims (sx sy : Nat) (kernel stride pad : Nat) :
    Nat × Nat :=
  ((sx + 2 * pad - kernel) / stride + 1, (sy + 2 * pad - kernel) / stride + 1)

/-- Modelled from the spec: `flattenCdr` lives in the host tensor library (not
in src/); the spec describes the softmax reshape as collapsing all trailing
dimensions into one. -/
def flattenCdr (dims : List Nat) : Nat × Nat :=
  (dims.headD 0, listProd (dims.drop 1))

/-- The mutable state of one import: the host graph, the tensor registry
`tensors_`, the resolution cache `nodeByName_`, the diagnostics printed by
`unexpectedNodeError` (message and dumped record), and the terminal save node
`root_`. -/
structure LoaderState where
  g : Graph
  tensors : String → Option Tensor
  nodeByName : String → Option GNode
  reports : List (String × OperatorDef)
  root : Option GNode

def initState : LoaderState :=
  ⟨⟨[], 0⟩, fun _ => none, fun _ => none, [], none⟩

/-- Source `getTensorByName`: asserts that the name is registered. -/
def getTensorByName (st : LoaderState) (name : String) :
    Except LoadErr Tensor :=
  match st.tensors name with
  | some T => .ok T
  | none => .error (.UnknownTensor name)

/-- Source `getNodeByName`: strict lookup, `llvm_unreachable` when absent. -/
def getNodeByName (st : LoaderState) (name : String) : Except LoadErr GNode :=
  match st.nodeByName name with
  | some v => .ok v
  | none => .error (.UnknownNode name)

/-- Source `getOrCreateNodeByName`: return the cached node when present; else
promote the registered tensor into a Private, Broadcast-train variable node
holding a copy of the tensor's contents, cache it and return it. -/
def getOrCreateNodeByName (st : LoaderState) (name : String) :
    Except LoadErr (GNode × LoaderState) :=
  match st.nodeByName name with
  | some v => .ok (v, st)
  | none =>
    match st.tensors name with
    | none => .error (.UnknownTensor name)
    | some T =>
      let (v, g) := st.g.alloc name
        (.var T.elemKind .Private .Broadcast T.data) T.dims
      let m := fun n => if n = name then some v else st.nodeByName n
      .ok (v, { st with g := g, nodeByName := m })

/-- The output-registration loop `nodeByName_[op.output(i)] = N` shared by all
lowerings; a later output with the same name overwrites an earlier one. -/
def registerOutputs (m : String → Option GNode) (outs : List String)
    (v : GNode) : String → Option GNode :=
  outs.foldl (fun m o => fun n => if n = o then some v else m n) m

/-- `op.input(i)`: out-of-range access of a repeated protobuf field aborts. -/
def opInput (op : OperatorDef) (i : Nat) : Except LoadErr String :=
  match op.input[i]? with
  | some s => .ok s
  | none => .error .IndexOutOfRange

/-- `op.output(i)`: out-of-range access of a repeated protobuf field aborts. -/
def opOutput (op : OperatorDef) (i : Nat) : Except LoadErr String :=
  match op.output[i]? with
  | some s => .ok s
  | none => .error .IndexOutOfRange

/-
Per-branch lowerings of `loadOperator`.  Node creation order follows the
source exactly.  Output dimension lists of factory-created nodes that the
source never reads back are host-graph behavior (the factory contract of spec
section 6), modelled from the spec where it fixes them (elementwise nodes
preserve shape, transpose permutes, convolution carries its computed output
type) and not relied on by any claim beyond that.
-/

/-- The "Relu" branch. -/
def loadRelu (st : LoaderState) (op : OperatorDef)
    (_dict : String → Option Argument) (opName : String) :
    Except LoadErr LoaderState := do
  let iname ← opInput op 0
  let (inN, st) ← getOrCreateNodeByName st iname
  let (r, g) := st.g.alloc opName (.relu inN.id) inN.dims
  .ok { st with g := g, nodeByName := registerOutputs st.nodeByName op.output r }

/-- The "Conv" branch.  The source zero-fills the bias variable and then
overwrites it via `copyFrom` when the record has a third input whose name is
registered in the tensor registry; nothing observes the node in between, so
the variable is allocated with its final payload directly.  The visibility
and train kind of the filter and bias variables come from a two-argument
`createVariable` overload whose defaults are outside src/; they are modelled
as Private/Broadcast and no claim depends on them. -/
def loadConv (st : LoaderState) (op : OperatorDef)
    (dict : String → Option Argument) (opName : String) :
    Except LoadErr LoaderState := do
  let stride ← match dict "stride" with
    | some a => loadInt a
    | none => .ok 1
  let pad ← match dict "pad" with
    | some a => loadInt a
    | none => .ok 0
  let kernelI ← getArg dict "kernel" >>= loadInt
  let kernel := toU32 kernelI
  let group ← match dict "group" with
    | some a => do
      let v ← loadInt a
      .ok (toU32 v)
    | none => .ok 1
  let iname ← opInput op 0
  let (inN, st) ← getOrCreateNodeByName st iname
  let wname ← opInput op 1
  let w ← getTensorByName st wname
  let wtag := w.transpose [0, 2, 3, 1]
  let depth := wtag.dims.headD 0
  let (filter, g) := st.g.alloc "conv.filter"
    (.var wtag.elemKind .Private .Broadcast wtag.data) wtag.dims
  let biasData ←
    if op.input.length > 2 then do
      let bname ← opInput op 2
      match st.tensors bname with
      | some b => .ok b.data
      | none => .ok (List.replicate depth (0 : FloatVal))
    else .ok (List.replicate depth (0 : FloatVal))
  let (bias, g) := g.alloc "conv.bias"
    (.var .FloatTy .Private .Broadcast biasData) [depth]
  let (tr, g) := g.alloc opName (.transpose inN.id NCHW2NHWC)
    (permDims inN.dims NCHW2NHWC)
  let idim := tr.dims
  let outSz := calculateConvOutputDims (idim.getD 1 0) (idim.getD 2 0) kernel
    (toSize stride) (toSize pad)
  let outDims := [idim.getD 0 0, outSz.1, outSz.2, depth]
  let (node, g) := g.alloc opName
    (.conv tr.id filter.id bias.id kernel stride pad group) outDims
  let (nOut, g) := g.alloc opName (.transpose node.id NHWC2NCHW)
    (permDims outDims NHWC2NCHW)
  .ok { st with g := g,
                nodeByName := registerOutputs st.nodeByName op.output nOut }

/-- The "MaxPool"/"AveragePool" branch.  With "global_pooling" set the kernel
is taken from dimension 3 of the original (channel-first) input node. -/
def loadPool (st : LoaderState) (op : OperatorDef)
    (dict : String → Option Argument) (opName : String) :
    Except LoadErr LoaderState := do
  let iname ← opInput op 0
  let (inN, st) ← getOrCreateNodeByName st iname
  let stride ← getArg dict "stride" >>= loadInt
  let kernel0 ← getArg dict "kernel" >>= loadInt
  let pad ← match dict "pad" with
    | some a => loadInt a
    | none =>
      if (dict "pad_l").isSome || (dict "pad_r").isSome ||
          (dict "pad_t").isSome || (dict "pad_b").isSome then
        .error .UnsupportedPadding
      else .ok 0
  let (tr, g) := st.g.alloc opName (.transpose inN.id NCHW2NHWC)
    (permDims inN.dims NCHW2NHWC)
  let kernel := if (dict "global_pooling").isSome then inN.dims.getD 3 0
    else toSize kernel0
  let outSz := calculateConvOutputDims (tr.dims.getD 1 0) (tr.dims.getD 2 0)
    kernel (toSize stride) (toSize pad)
  let outDims := [tr.dims.getD 0 0, outSz.1, outSz.2, tr.dims.getD 3 0]
  let (node, g) :=
    if op.type = "MaxPool" then
      g.alloc opName (.poolMax tr.id kernel stride pad) outDims
    else
      g.alloc opName (.poolAvg tr.id kernel stride pad) outDims
  let (nOut, g) := g.alloc opName (.transpose node.id NHWC2NCHW)
    (permDims outDims NHWC2NCHW)
  .ok { st with g := g,
                nodeByName := registerOutputs st.nodeByName op.output nOut }

/-- The "Dropout" branch: identity at inference, every output aliases the
input node; no node is created. -/
def loadDropout (st : LoaderState) (op : OperatorDef)
    (_dict : String → Option Argument) (_opName : String) :
    Except LoadErr LoaderState := do
  let iname ← opInput op 0
  let (inN, st) ← getOrCreateNodeByName st iname
  .ok { st with nodeByName := registerOutputs st.nodeByName op.output inN }

/-- The "SpatialBN" branch.  The scale/bias/mean/variance payloads are copied
into the created node's parameter variables right after creation and before
output registration, so the node is allocated with its final payloads. -/
def loadSpatialBN (st : LoaderState) (op : OperatorDef)
    (dict : String → Option Argument) (opName : String) :
    Except LoadErr LoaderState := do
  let iname ← opInput op 0
  let (inN, st) ← getOrCreateNodeByName st iname
  let scale ← opInput op 1 >>= getTensorByName st
  let bias ← opInput op 2 >>= getTensorByName st
  let mean ← opInput op 3 >>= getTensorByName st
  let vr ← opInput op 4 >>= getTensorByName st
  let epsilon ← match dict "epsilon" with
    | some a => loadFloat a
    | none => .ok ((1 : FloatVal) / 100000)
  let channel ← getChannel dict
  let (node, g) := st.g.alloc opName
    (.batchNorm inN.id channel epsilon scale.data bias.data mean.data vr.data)
    inN.dims
  .ok { st with g := g,
                nodeByName := registerOutputs st.nodeByName op.output node }

/-- The "Concat" branch: resolve all declared inputs in order, concatenate
along the channel axis from the "order" rule. -/
def loadConcat (st : LoaderState) (op : OperatorDef)
    (dict : String → Option Argument) (opName : String) :
    Except LoadErr LoaderState := do
  let (inputs, st) ← op.input.foldlM
    (fun (p : List GNode × LoaderState) nm => do
      let (v, st) ← getOrCreateNodeByName p.2 nm
      .ok (p.1 ++ [v], st))
    (([] : List GNode), st)
  let channel ← getChannel dict
  let d0 := ((inputs.head?).map GNode.dims).getD []
  let csum := inputs.foldl (fun a v => a + v.dims.getD channel 0) 0
  let (node, g) := st.g.alloc opName
    (.concat (inputs.map GNode.id) channel) (d0.set channel csum)
  .ok { st with g := g,
                nodeByName := registerOutputs st.nodeByName op.output node }

/-- The "Sum" branch: fixed two-input elementwise add. -/
def loadSum (st : LoaderState) (op : OperatorDef)
    (_dict : String → Option Argument) (opName : String) :
    Except LoadErr LoaderState := do
  let i0 ← opInput op 0
  let (in0, st) ← getOrCreateNodeByName st i0
  let i1 ← opInput op 1
  let (in1, st) ← getOrCreateNodeByName st i1
  let (node, g) := st.g.alloc opName (.add in0.id in1.id) in0.dims
  .ok { st with g := g,
                nodeByName := registerOutputs st.nodeByName op.output node }

/-- The "Softmax" branch: the reserved "softmax_expected" input is resolved
first, then the input is flattened to 2D and the softmax node created. -/
def loadSoftmax (st : LoaderState) (op : OperatorDef)
    (_dict : String → Option Argument) (opName : String) :
    Except LoadErr LoaderState := do
  let (softmaxExpected, st) ← getOrCreateNodeByName st "softmax_expected"
  let iname ← opInput op 0
  let (inN, st) ← getOrCreateNodeByName st iname
  let flat := flattenCdr inN.dims
  let (resh, g) := st.g.alloc "reshape" (.reshape inN.id [flat.1, flat.2])
    [flat.1, flat.2]
  let (node, g) := g.alloc opName (.softmax resh.id softmaxExpected.id)
    resh.dims
  .ok { st with g := g,
                nodeByName := registerOutputs st.nodeByName op.output node }

/-- The "FC" branch.  The stored weight matrix is transposed back before use;
the train kind of the variables built by the two-argument `Variable`
constructor is outside src/ and modelled as None; no claim depends on it. -/
def loadFC (st : LoaderState) (op : OperatorDef)
    (_dict : String → Option Argument) (opName : String) :
    Except LoadErr LoaderState := do
  let iname ← opInput op 0
  let (inN, st) ← getOrCreateNodeByName st iname
  let w ← opInput op 1 >>= getTensorByName st
  let b ← opInput op 2 >>= getTensorByName st
  let wtag := w.transpose [1, 0]
  let (wN, g) := st.g.alloc "weights"
    (.var wtag.elemKind .Private .None wtag.data) wtag.dims
  let (bN, g) := g.alloc "biases" (.var b.elemKind .Private .None b.data)
    b.dims
  let (fc, g) := g.alloc opName (.fullyConnected inN.id wN.id bN.id)
    [inN.dims.headD 0, wtag.dims.getD 1 0]
  .ok { st with g := g,
                nodeByName := registerOutputs st.nodeByName op.output fc }

/-- The "LRN" branch: the "size" argument is halved before use. -/
def loadLRN (st : LoaderState) (op : OperatorDef)
    (dict : String → Option Argument) (opName : String) :
    Except LoadErr LoaderState := do
  let iname ← opInput op 0
  let (inN, st) ← getOrCreateNodeByName st iname
  let size ← getArg dict "size" >>= loadInt
  let alpha ← getArg dict "alpha" >>= loadFloat
  let beta ← getArg dict "beta" >>= loadFloat
  let k ← getArg dict "bias" >>= loadFloat
  let (tr, g) := st.g.alloc opName (.transpose inN.id NCHW2NHWC)
    (permDims inN.dims NCHW2NHWC)
  let (node, g) := g.alloc opName
    (.lrn tr.id (toSize size / 2) alpha beta k) tr.dims
  let (nOut, g) := g.alloc opName (.transpose node.id NHWC2NCHW)
    (permDims tr.dims NHWC2NCHW)
  .ok { st with g := g,
                nodeByName := registerOutputs st.nodeByName op.output nOut }

/-- A `size_t` difference assigned to a C++ `int`: the subtraction wraps
modulo 2^64 and the result is then converted to a 32-bit signed value. -/
def sizeDiffToInt (a b : Nat) : Int := toI32 (((a : Int) - (b : Int)) % 2 ^ 64)

/-- The "Mul"/"Add" branch: with broadcast=1 the axis is read, and axis -1 is
resolved as the difference of the two input ranks before the broadcast node
is created. -/
def loadMulAdd (st : LoaderState) (op : OperatorDef)
    (dict : String → Option Argument) (opName : String) :
    Except LoadErr LoaderState := do
  let i0 ← opInput op 0
  let (in0, st) ← getOrCreateNodeByName st i0
  let i1 ← opInput op 1
  let (in1, st) ← getOrCreateNodeByName st i1
  let broadcast ← getArg dict "broadcast" >>= loadInt
  let (finalIn1, st) ←
    if broadcast = 1 then do
      let axis0 ← getArg dict "axis" >>= loadInt
      let axis := if axis0 = -1 then
          sizeDiffToInt in0.dims.length in1.dims.length
        else axis0
      let (bc, g) := st.g.alloc opName (.broadcast in1.id in0.dims axis)
        in0.dims
      .ok (bc, { st with g := g })
    else .ok (in1, st)
  let (node, g) := st.g.alloc opName
    (if op.type = "Mul" then .mul in0.id finalIn1.id
     else .add in0.id finalIn1.id) in0.dims
  .ok { st with g := g,
                nodeByName := registerOutputs st.nodeByName op.output node }

/-- The "ChannelShuffle" branch. -/
def loadChannelShuffle (st : LoaderState) (op : OperatorDef)
    (dict : String → Option Argument) (opName : String) :
    Except LoadErr LoaderState := do
  let iname ← opInput op 0
  let (inN, st) ← getOrCreateNodeByName st iname
  let group ← getArg dict "group" >>= loadInt
  let kernel ← getArg dict "kernel" >>= loadInt
  let (node, g) := st.g.alloc opName
    (.channelShuffle inN.id (toSize group) (toSize kernel)) inN.dims
  .ok { st with g := g,
                nodeByName := registerOutputs st.nodeByName op.output node }

/-- The "Squeeze" branch.  The squeezed dimension list (host factory
behavior, not in src/) drops the listed axes; no claim depends on it. -/
def loadSqueeze (st : LoaderState) (op : OperatorDef)
    (dict : String → Option Argument) (opName : String) :
    Except LoadErr LoaderState := do
  let iname ← opInput op 0
  let (inN, st) ← getOrCreateNodeByName st iname
  let dims ← getArg dict "dims"
  let axes := getShape dims
  let outDims := ((inN.dims.enum).filter (fun p => ¬ axes.contains p.1)).map
    Prod.snd
  let (node, g) := st.g.alloc opName (.squeeze inN.id axes) outDims
  .ok { st with g := g,
                nodeByName := registerOutputs st.nodeByName op.output node }

/-- Source `loadOperator`: build the argument dictionary and the operator
name, dispatch on the kind tag, and for any unrecognized kind print
"Unsupported operator." with the dumped record via `unexpectedNodeError` and
return without touching the graph or the name map. -/
def loadOperator (st : LoaderState) (op : OperatorDef) :
    Except LoadErr LoaderState := do
  let dict := loadArgumentMap op
  let opName ← if op.name.length > 0 then .ok op.name else opOutput op 0
  if op.type = "Relu" then loadRelu st op dict opName
  else if op.type = "Conv" then loadConv st op dict opName
  else if op.type = "MaxPool" || op.type = "AveragePool" then
    loadPool st op dict opName
  else if op.type = "Dropout" then loadDropout st op dict opName
  else if op.type = "SpatialBN" then loadSpatialBN st op dict opName
  else if op.type = "Concat" then loadConcat st op dict opName
  else if op.type = "Sum" then loadSum st op dict opName
  else if op.type = "Softmax" then loadSoftmax st op dict opName
  else if op.type = "FC" then loadFC st op dict opName
  else if op.type = "LRN" then loadLRN st op dict opName
  else if op.type = "Mul" || op.type = "Add" then loadMulAdd st op dict opName
  else if op.type = "ChannelShuffle" then loadChannelShuffle st op dict opName
  else if op.type = "Squeeze" then loadSqueeze st op dict opName
  else .ok { st with reports := st.reports ++ [("Unsupported operator.", op)] }

/-- Source `loadNetwork`: lower every operator in file order, assert that at
least one external output is declared, strictly resolve the first one and
bind it to a terminal "output" save node stored in `root_`. -/
def loadNetwork (st : LoaderState) (net : NetDef) :
    Except LoadErr LoaderState := do
  let st ← net.op.foldlM loadOperator st
  if net.external_output.length = 0 then .error .MissingExternalOutput
  else do
    let r ← getNodeByName st (net.external_output.headD "")
    let (sv, g) := st.g.alloc "output" (.save r.id) r.dims
    .ok { st with g := g, root := some sv }

/-- The sequential fill loop `TH.raw(i++) = f` of "GivenTensorFill": the
supplied floats written at successive raw indices of the buffer. -/
def fillRaw (data : List FloatVal) (vs : List FloatVal) : List FloatVal :=
  (vs.foldl (fun (p : List FloatVal × Nat) f => (p.1.set p.2 f, p.2 + 1))
    (data, 0)).1

/-- The multi-output registration `tensors_[o] = T` of "GivenTensorFill": all
declared output names alias the single freshly built tensor. -/
def registerTensorAll (m : String → Option Tensor) (outs : List String)
    (T : Tensor) : String → Option Tensor :=
  outs.foldl (fun m o => fun n => if n = o then some T else m n) m

/-- One iteration of the source `loadWeights` loop.  The source registers the
freshly allocated (still empty) tensor under the output names before parsing
the shape and values and before the count assertion; every failure in between
aborts the whole import, so registering the completed tensor at the end is
observationally the same and is how it is modelled here.  Any record whose
kind is neither "GivenTensorFill" nor "ConstantFill" is reported via
`unexpectedNodeError("Unsupported weight kind")` and skipped. -/
def loadWeightsOp (st : LoaderState) (op : OperatorDef) :
    Except LoadErr LoaderState := do
  let dict := loadArgumentMap op
  if op.type = "GivenTensorFill" then do
    let shapeArg ← getArg dict "shape"
    let dim := getShape shapeArg
    let valuesArg ← getArg dict "values"
    let size := listProd dim
    let data := fillRaw (List.replicate size (0 : FloatVal)) valuesArg.floats
    if valuesArg.floats.length = size then
      let T : Tensor := ⟨.FloatTy, dim, data⟩
      .ok { st with tensors := registerTensorAll st.tensors op.output T }
    else .error .ShapeMismatch
  else if op.type = "ConstantFill" then do
    let name ← opOutput op 0
    if (st.tensors name).isSome then .ok st
    else do
      let shapeArg ← getArg dict "shape"
      let dim := getShape shapeArg
      let T : Tensor := ⟨.FloatTy, dim, List.replicate (listProd dim) 0⟩
      let m := fun n => if n = name then some T else st.tensors n
      .ok { st with tensors := m }
  else .ok { st with reports := st.reports ++ [("Unsupported weight kind", op)] }

/-- Source `loadWeights`: the weight-materialization pass over all records of
the weights NetDef. -/
def loadWeights (st : LoaderState) (net : NetDef) :
    Except LoadErr LoaderState :=
  net.op.foldlM loadWeightsOp st

/-- One pre-seeded (name, tensor) pair of the constructor: a Public,
non-trainable variable node holding a copy of the caller's tensor,
registered directly in the node-by-name map. -/
def preseedOne (st : LoaderState) (p : String × Tensor) : LoaderState :=
  let (v, g) := st.g.alloc p.1 (.var p.2.elemKind .Public .None p.2.data)
    p.2.dims
  let m := fun n => if n = p.1 then some v else st.nodeByName n
  { st with g := g, nodeByName := m }

/-- The pre-seeding loop of the constructor, in argument order. -/
def preseed (st : LoaderState) (ps : List (String × Tensor)) : LoaderState :=
  ps.foldl preseedOne st

/-- Source `caffe2ModelLoader::caffe2ModelLoader`: assert the initialization
lists have equal length, pre-seed the caller's tensors as Public
non-trainable input nodes, then materialize the weights, then lower the
network.  The file deserialization steps are out of scope; the two decoded
NetDefs are consumed directly. -/
def caffe2ModelLoader (networkDef weightsDef : NetDef) (names : List String)
    (tensorList : List Tensor) : Except LoadErr LoaderState := do
  if names.length = tensorList.length then
    let st := preseed initState (names.zip tensorList)
    let st ← loadWeights st weightsDef
    loadNetwork st networkDef
  else .error .InvalidInitList

/-- The closed set of kind tags the compute-pass dispatcher recognizes. -/
def supportedKinds : List String :=
  ["Relu", "Conv", "MaxPool", "AveragePool", "Dropout", "SpatialBN", "Concat",
   "Sum", "Softmax", "FC", "LRN", "Mul", "Add", "ChannelShuffle", "Squeeze"]

/-
Helper lemmas and concrete scenarios shared by the verification theorems.
-/

theorem preseed_tensors (ps : List (String × Tensor)) :
    ∀ st : LoaderState, (preseed st ps).tensors = st.tensors := by
  induction ps with
  | nil => intro st; rfl
  | cons p rest ih =>
    intro st
    show (preseed (preseedOne st p) rest).tensors = st.tensors
    rw [ih (preseedOne st p)]
    rfl

theorem preseed_nodeByName_of_not_bound (ps : List (String × Tensor))
    (name : String) :
    ∀ st : LoaderState, (∀ p ∈ ps, p.1 ≠ name) →
      (preseed st ps).nodeByName name = st.nodeByName name := by
  induction ps with
  | nil => intro st _; rfl
  | cons p rest ih =>
    intro st h
    show (preseed (preseedOne st p) rest).nodeByName name = st.nodeByName name
    rw [ih (preseedOne st p) (fun q hq => h q (List.mem_cons_of_mem p hq))]
    have hp : p.1 ≠ name := h p (List.mem_cons_self p rest)
    show (if name = p.1 then _ else st.nodeByName name) = st.nodeByName name
    rw [if_neg (fun e => hp e.symm)]

/-- A state whose registry holds one constant tensor named "w" and whose node
map is empty, for exercising the resolution cache. -/
def cacheDemoState : LoaderState :=
  { initState with
    tensors := fun n => if n = "w" then some ⟨.FloatTy, [2], [1, 2]⟩ else none }

/-- C3: for a name bound to a registered constant tensor and not yet in the
node-by-name map, the first resolve creates and caches exactly one input
node, and a second resolve returns the very same node handle with the state
unchanged — no second node is allocated. -/
theorem c3_resolve_idempotent (st : LoaderState) (name : String) (T : Tensor)
    (h1 : st.nodeByName name = none) (h2 : st.tensors name = some T) :
    ∃ v st2, getOrCreateNodeByName st name = .ok (v, st2) ∧
      st2.g.nodes = st.g.nodes ++ [v] ∧
      st2.nodeByName name = some v ∧
      getOrCreateNodeByName st2 name = .ok (v, st2) := by
  have hfst : getOrCreateNodeByName st name =
      .ok (⟨st.g.nextId, name, .var T.elemKind .Private .Broadcast T.data,
        T.dims⟩,
        { st with
          g := ⟨st.g.nodes ++
            [⟨st.g.nextId, name, .var T.elemKind .Private .Broadcast T.data,
              T.dims⟩], st.g.nextId + 1⟩,
          nodeByName := fun n => if n = name then
            some ⟨st.g.nextId, name, .var T.elemKind .Private .Broadcast
              T.data, T.dims⟩
            else st.nodeByName n }) := by
    unfold getOrCreateNodeByName
    rw [h1, h2]
    rfl
  refine ⟨_, _, hfst, rfl, ?_, ?_⟩
  · show (if name = name then _ else _) = _
    rw [if_pos rfl]
  · unfold getOrCreateNodeByName
    show (match (if name = name then _ else _ : Option GNode) with
      | some v => Except.ok (v, _) | none => _) = _
    rw [if_pos rfl]

/-- C3 witness: the cache property exercised on `cacheDemoState` at name
"w". -/
theorem c3_resolve_idempotent_witness :
    cacheDemoState.nodeByName "w" = none ∧
    cacheDemoState.tensors "w" = some ⟨.FloatTy, [2], [1, 2]⟩ ∧
    (∃ v st2, getOrCreateNodeByName cacheDemoState "w" = .ok (v, st2) ∧
      st2.g.nodes = cacheDemoState.g.nodes ++ [v] ∧
      st2.nodeByName "w" = some v ∧
      getOrCreateNodeByName st2 "w" = .ok (v, st2)) :=
  ⟨rfl, rfl, c3_resolve_idempotent cacheDemoState "w" ⟨.FloatTy, [2], [1, 2]⟩
    rfl rfl⟩

/-- A compute-pass record with the unsupported kind tag "FooBar". -/
def fooBarOp : OperatorDef := { type := "FooBar", output := ["y"] }

/-- A Relu record fed by the pre-seeded input "data". -/
def reluDataOp : OperatorDef :=
  { type := "Relu", input := ["data"], output := ["r"] }

/-- A network whose first operator has the unsupported kind "FooBar",
followed by a well-formed Relu, with the Relu result as external output. -/
def c1Network : NetDef :=
  { op := [fooBarOp, reluDataOp], external_output := ["r"] }

/-- A rank-1 caller tensor used to pre-seed the name "data". -/
def dataTensor1 : Tensor := ⟨.FloatTy, [1], [0]⟩

/-- C1 counterexample: lowering a network that contains the unsupported kind
"FooBar" does not fail and does not stop.  The whole import returns
successfully; the offending record is only reported ("Unsupported operator."
with the record dumped); the subsequent Relu operator is still lowered (the
node named "r") and the terminal save node is still created. -/
theorem c1_counterexample :
    (caffe2ModelLoader c1Network {} ["data"] [dataTensor1]).toOption.map
        (fun s => (s.reports, s.root.map GNode.kind,
          s.g.nodes.map GNode.name)) =
      some ([("Unsupported operator.", fooBarOp)], some (.save 1),
        ["data", "r", "output"]) := by
  rfl

/-- C1 amended: an operator whose kind tag is not in the supported set is
reported via `unexpectedNodeError` ("Unsupported operator.", full record
dumped) and skipped: no node is created for it and no output name of it is
registered, but the pass does not abort — the state is returned unchanged
except for the report, so subsequent operators and the terminal save node are
still processed. -/
theorem c1_amended (st : LoaderState) (op : OperatorDef)
    (hk : ¬ op.type ∈ supportedKinds)
    (hn : op.name.length > 0 ∨ op.output ≠ []) :
    loadOperator st op =
      .ok { st with reports := st.reports ++ [("Unsupported operator.", op)] } := by
  simp only [supportedKinds, List.mem_cons, List.not_mem_nil, not_or,
    or_false] at hk
  obtain ⟨k1, k2, k3, k4, k5, k6, k7, k8, k9, k10, k11, k12, k13, k14, k15⟩ := hk
  unfold loadOperator
  by_cases hl : op.name.length > 0
  · rw [if_pos hl]
    simp [k1, k2, k3, k4, k5, k6, k7, k8, k9, k10, k11, k12, k13, k14, k15]
    rfl
  · rcases hn with h | h
    · exact absurd h hl
    · rcases hop : op.output with _ | ⟨o, rest⟩
      · exact absurd hop h
      · rw [if_neg hl]
        simp [opOutput, hop, k1, k2, k3, k4, k5, k6, k7, k8, k9, k10, k11,
          k12, k13, k14, k15]
        rfl

/-- C1 amended witness: the amended behavior evaluated on the concrete
"FooBar" record. -/
theorem c1_amended_witness :
    loadOperator initState fooBarOp =
      .ok { initState with reports := [("Unsupported operator.", fooBarOp)] } :=
  c1_amended initState fooBarOp (by decide) (.inr (by decide))

/-- A record with the known compute kind "Conv", as it would appear in a
weights file. -/
def convWeightRecord : OperatorDef :=
  { type := "Conv", input := ["x", "w"], output := ["y"] }

/-- C9 counterexample: the weight pass does NOT silently ignore known compute
kinds.  A "Conv" record — a member of the supported compute set — is reported
as "Unsupported weight kind" with the full record dumped. -/
theorem c9_counterexample :
    "Conv" ∈ supportedKinds ∧
    (loadWeights initState { op := [convWeightRecord] }).toOption.map
        (fun s => s.reports) =
      some [("Unsupported weight kind", convWeightRecord)] :=
  ⟨by decide, rfl⟩

/-- C9 amended: during the weight pass every record whose kind is neither
"GivenTensorFill" nor "ConstantFill" — whether or not it is a known compute
kind — is reported as an unsupported weight kind with the full record dumped,
registers no tensor, and the pass continues with the state otherwise
unchanged. -/
theorem c9_amended (st : LoaderState) (op : OperatorDef)
    (h1 : op.type ≠ "GivenTensorFill") (h2 : op.type ≠ "ConstantFill") :
    loadWeightsOp st op =
      .ok { st with reports := st.reports ++ [("Unsupported weight kind", op)] } := by
  unfold loadWeightsOp
  rw [if_neg h1, if_neg h2]

/-- C9 amended witness: the amended behavior evaluated on the concrete "Conv"
weight record. -/
theorem c9_amended_witness :
    loadWeightsOp initState convWeightRecord =
      .ok { initState with
        reports := [("Unsupported weight kind", convWeightRecord)] } :=
  c9_amended initState convWeightRecord (by decide) (by decide)

/-- The caller's pre-seeded input tensor of shape [1,3,224,224]. -/
def bigDataTensor : Tensor :=
  ⟨.FloatTy, [1, 3, 224, 224], List.replicate (1 * 3 * 224 * 224) 0⟩

/-- A zero-fill (ConstantFill) record for the name "data" with shape [1]. -/
def constantFillData : OperatorDef :=
  { type := "ConstantFill", output := ["data"],
    arg := [{ name := "shape", ints := [1] }] }

/-- A zero-fill (ConstantFill) record for the name "data" with shape [2]. -/
def constantFillData2 : OperatorDef :=
  { type := "ConstantFill", output := ["data"],
    arg := [{ name := "shape", ints := [2] }] }

/-- C2 counterexample: pre-seed "data" with shape [1,3,224,224], then run the
weight pass over a zero-fill record for "data" with shape [1].
Materialization is NOT skipped: the resulting registry entry for "data" has
shape [1], not [1,3,224,224] — pre-seeding registers a node, not a registry
tensor, so the skip check `tensors_.count(name)` does not see it. -/
theorem c2_counterexample :
    (loadWeights (preseed initState [("data", bigDataTensor)])
        { op := [constantFillData] }).toOption.map
        (fun s => (s.tensors "data").map Tensor.dims) =
      some (some [1]) ∧
    some (some [1]) ≠ some (some ([1, 3, 224, 224] : List Nat)) :=
  ⟨rfl, by decide⟩

/-- C2 amended: pre-seeding registers a graph input node under the name, not
a tensor-registry entry, so a zero-fill record for a pre-seeded name still
materializes a fresh zero tensor of its own shape in the registry; the skip
applies only when the registry itself already holds the name (e.g. from an
earlier fill record of the same pass).  The pre-seeded node keeps its shape
[1,3,224,224] and is still what resolution returns, without allocating.
Concretely: the scenario of the claim yields registry shape [1] next to the
untouched pre-seeded node, and a second zero-fill for a name the registry
already holds (shape [2] from an earlier fill) is skipped. -/
theorem c2_amended :
    ((loadWeights (preseed initState [("data", bigDataTensor)])
        { op := [constantFillData] }).toOption.map
        (fun s => ((s.tensors "data").map Tensor.dims,
          (s.nodeByName "data").map GNode.dims,
          (getOrCreateNodeByName s "data").toOption.map
            (fun p => (p.1.dims, p.2.g.nodes.length)))) =
      some (some [1], some [1, 3, 224, 224],
        some ([1, 3, 224, 224], 1))) ∧
    ((loadWeights initState { op := [constantFillData2, constantFillData] }).toOption.map
        (fun s => (s.tensors "data").map Tensor.dims) =
      some (some [2])) :=
  ⟨rfl, rfl⟩

/-- C4: an explicit-fill (GivenTensorFill) record whose values count differs
from the product of its shape fails with the shape-mismatch count assertion;
nothing is registered, truncated or padded — the error aborts the pass. -/
theorem c4_fill_mismatch (st : LoaderState) (outs : List String)
    (shapeInts : List Int) (vals : List FloatVal)
    (h : vals.length ≠ listProd (shapeInts.map toSize)) :
    loadWeightsOp st
      { type := "GivenTensorFill", output := outs,
        arg := [{ name := "shape", ints := shapeInts },
                { name := "values", floats := vals }] } =
      .error .ShapeMismatch := by
  unfold loadWeightsOp
  show (if vals.length = listProd (List.map toSize shapeInts) then _
    else Except.error LoadErr.ShapeMismatch) = _
  rw [if_neg h]

/-- C4 witness: shape [2,2] (4 elements) with 3 supplied values fails with
ShapeMismatch. -/
theorem c4_fill_mismatch_witness :
    ([(1 : FloatVal), 2, 3].length ≠ listProd ([(2 : Int), 2].map toSize)) ∧
    loadWeightsOp initState
      { type := "GivenTensorFill", output := ["w"],
        arg := [{ name := "shape", ints := [2, 2] },
                { name := "values", floats := [1, 2, 3] }] } =
      .error .ShapeMismatch :=
  ⟨by decide, c4_fill_mismatch initState ["w"] [2, 2] [1, 2, 3] (by decide)⟩

/-- Bind of a successful Except value, for stepwise reduction of lowering
runs. -/
theorem exceptBindOk {α β : Type} (a : α) (f : α → Except LoadErr β) :
    (Except.ok a >>= f) = f a := rfl

/-- A state holding one already-lowered node named "x", for exercising
lowerings whose branch resolves its input before reading arguments. -/
def poolDemoNode : GNode :=
  ⟨0, "x", .var .FloatTy .Public .None [], [1, 1, 2, 2]⟩

def poolDemoState : LoaderState :=
  { g := ⟨[poolDemoNode], 1⟩, tensors := fun _ => none,
    nodeByName := fun n => if n = "x" then some poolDemoNode else none,
    reports := [], root := none }

/-- C5: the typed accessor policy.  A name absent from the dictionary with no
call-site default fails as MissingArgument (the null dereference of
`dict[name]`); a present argument whose stored tag disagrees with the
requested accessor fails as TypeMismatch (the `has_i`/`has_f`/`has_s`
assertions); lowering never proceeds with an arbitrary value.  In particular
a Conv record with no "kernel" argument fails with MissingArgument "kernel",
a MaxPool record with no "stride" argument fails with MissingArgument
"stride", and a Conv record whose "kernel" argument holds only a float fails
with TypeMismatch "kernel". -/
theorem c5_accessor_policy :
    (∀ (dict : String → Option Argument) (n : String), dict n = none →
      (getArg dict n >>= loadInt) = .error (.MissingArgument n) ∧
      (getArg dict n >>= loadFloat) = .error (.MissingArgument n) ∧
      (getArg dict n >>= loadStr) = .error (.MissingArgument n)) ∧
    (∀ (dict : String → Option Argument) (n : String) (a : Argument),
      dict n = some a →
      (a.i = none →
        (getArg dict n >>= loadInt) = .error (.TypeMismatch a.name)) ∧
      (a.f = none →
        (getArg dict n >>= loadFloat) = .error (.TypeMismatch a.name)) ∧
      (a.s = none →
        (getArg dict n >>= loadStr) = .error (.TypeMismatch a.name))) ∧
    (∀ (st : LoaderState) (i w o : String),
      loadOperator st { type := "Conv", input := [i, w], output := [o] } =
        .error (.MissingArgument "kernel")) ∧
    (∀ (st : LoaderState) (i o : String) (inN : GNode),
      st.nodeByName i = some inN →
      loadOperator st { type := "MaxPool", input := [i], output := [o] } =
        .error (.MissingArgument "stride")) ∧
    (∀ (st : LoaderState) (i w o : String) (x : FloatVal),
      loadOperator st
        { type := "Conv", input := [i, w], output := [o],
          arg := [{ name := "kernel", f := some x }] } =
        .error (.TypeMismatch "kernel")) := by
  refine ⟨?_, ?_, ?_, ?_, ?_⟩
  · intro dict n h
    refine ⟨?_, ?_, ?_⟩ <;> · unfold getArg; rw [h]; rfl
  · intro dict n a h
    obtain ⟨nm, ai, af, as0, ints0, fl0⟩ := a
    refine ⟨?_, ?_, ?_⟩
    · intro hi; cases hi; unfold getArg; rw [h]; rfl
    · intro hf; cases hf; unfold getArg; rw [h]; rfl
    · intro hs; cases hs; unfold getArg; rw [h]; rfl
  · intro st i w o
    rfl
  · intro st i o inN h
    have r1 : getOrCreateNodeByName st i = .ok (inN, st) := by
      unfold getOrCreateNodeByName; rw [h]
    unfold loadOperator loadPool
    rw [show opInput { type := "MaxPool", input := [i], output := [o] } 0 =
      Except.ok (ε := LoadErr) i from rfl]
    simp only [exceptBindOk]
    rw [r1]
    simp only [exceptBindOk]
    rfl
  · intro st i w o x
    rfl

/-- C5 witness: the five accessor-policy facts at concrete inputs. -/
theorem c5_accessor_policy_witness :
    ((getArg (fun _ => none) "kernel" >>= loadInt) =
      .error (.MissingArgument "kernel")) ∧
    ((getArg (fun n => if n = "kernel" then
        some { name := "kernel", f := some 1 } else none) "kernel" >>=
        loadInt) = .error (.TypeMismatch "kernel")) ∧
    (loadOperator initState
        { type := "Conv", input := ["x", "w"], output := ["y"] } =
      .error (.MissingArgument "kernel")) ∧
    (loadOperator poolDemoState
        { type := "MaxPool", input := ["x"], output := ["y"] } =
      .error (.MissingArgument "stride")) ∧
    (loadOperator initState
        { type := "Conv", input := ["x", "w"], output := ["y"],
          arg := [{ name := "kernel", f := some 1 }] } =
      .error (.TypeMismatch "kernel")) :=
  ⟨(c5_accessor_policy.1 (fun _ => none) "kernel" rfl).1,
   ((c5_accessor_policy.2.1 (fun n => if n = "kernel" then
      some { name := "kernel", f := some 1 } else none) "kernel"
      { name := "kernel", f := some 1 } rfl).1 rfl),
   c5_accessor_policy.2.2.1 initState "x" "w" "y",
   c5_accessor_policy.2.2.2.1 poolDemoState "x" "y" poolDemoNode rfl,
   c5_accessor_policy.2.2.2.2 initState "x" "w" "y" 1⟩

/-
Integer-conversion lemmas: within the ranges the conversions are identities.
-/

theorem toI32_coe_of_lt (n : Nat) (h : n < 2 ^ 31) :
    toI32 (n : Int) = (n : Int) := by
  unfold toI32
  have h2 : (n : Int) < 2 ^ 31 := by exact_mod_cast h
  omega

theorem toU32_toI32_coe (n : Nat) (h : n < 2 ^ 31) :
    toU32 (toI32 (n : Int)) = n := by
  rw [toI32_coe_of_lt n h]
  unfold toU32
  have h2 : (n : Int) < 2 ^ 31 := by exact_mod_cast h
  omega

theorem toSize_toI32_coe (n : Nat) (h : n < 2 ^ 31) :
    toSize (toI32 (n : Int)) = n := by
  rw [toI32_coe_of_lt n h]
  unfold toSize
  have h2 : (n : Int) < 2 ^ 31 := by exact_mod_cast h
  omega

theorem sizeDiffToInt_eq (a b : Nat) (hle : b ≤ a) (hlt : a < 2 ^ 31) :
    sizeDiffToInt a b = (a : Int) - b := by
  unfold sizeDiffToInt toI32
  have h1 : (b : Int) ≤ a := by exact_mod_cast hle
  have h2 : (a : Int) < 2 ^ 31 := by exact_mod_cast hlt
  omega

/-- A Conv record with two inputs (input and weight tensor) and explicit
kernel, stride and pad arguments. -/
def convRecord2 (i w o : String) (kernel stride pad : Int) : OperatorDef :=
  { type := "Conv", input := [i, w], output := [o],
    arg := [{ name := "kernel", i := some kernel },
            { name := "stride", i := some stride },
            { name := "pad", i := some pad }] }

/-- A Conv record with a third input naming a serialized bias tensor. -/
def convRecord3 (i w o b : String) (kernel stride pad : Int) : OperatorDef :=
  { type := "Conv", input := [i, w, b], output := [o],
    arg := [{ name := "kernel", i := some kernel },
            { name := "stride", i := some stride },
            { name := "pad", i := some pad }] }

/-- The channel-last output dimension list the Conv branch computes before
transposing back: batch, the two spatial dims from
`calculateConvOutputDims`, and the output-channel count (first dimension of
the transposed weight tensor). -/
def convOutDimsNHWC (inN : GNode) (wT : Tensor) (kernel stride pad : Int) :
    List Nat :=
  [(permDims inN.dims NCHW2NHWC).getD 0 0,
   (calculateConvOutputDims ((permDims inN.dims NCHW2NHWC).getD 1 0)
      ((permDims inN.dims NCHW2NHWC).getD 2 0)
      (toU32 kernel) (toSize stride) (toSize pad)).1,
   (calculateConvOutputDims ((permDims inN.dims NCHW2NHWC).getD 1 0)
      ((permDims inN.dims NCHW2NHWC).getD 2 0)
      (toU32 kernel) (toSize stride) (toSize pad)).2,
   (wT.transpose [0, 2, 3, 1]).dims.headD 0]

/-- The filter variable node the Conv branch creates (creation order 0). -/
def convFilterNode (st : LoaderState) (wT : Tensor) : GNode :=
  ⟨st.g.nextId, "conv.filter",
    .var (wT.transpose [0, 2, 3, 1]).elemKind .Private .Broadcast
      (wT.transpose [0, 2, 3, 1]).data, (wT.transpose [0, 2, 3, 1]).dims⟩

/-- The bias variable node the Conv branch creates (creation order 1), with
its final payload. -/
def convBiasNode (st : LoaderState) (wT : Tensor) (biasData : List FloatVal) :
    GNode :=
  ⟨st.g.nextId + 1, "conv.bias", .var .FloatTy .Private .Broadcast biasData,
    [(wT.transpose [0, 2, 3, 1]).dims.headD 0]⟩

/-- The NCHW→NHWC input transpose node of the Conv branch (creation
order 2). -/
def convTrNode (st : LoaderState) (o : String) (inN : GNode) : GNode :=
  ⟨st.g.nextId + 2, o, .transpose inN.id NCHW2NHWC,
    permDims inN.dims NCHW2NHWC⟩

/-- The convolution node of the Conv branch (creation order 3). -/
def convMainNode (st : LoaderState) (o : String) (inN : GNode) (wT : Tensor)
    (kernel stride pad : Int) : GNode :=
  ⟨st.g.nextId + 3, o,
    .conv (st.g.nextId + 2) st.g.nextId (st.g.nextId + 1) (toU32 kernel)
      stride pad 1, convOutDimsNHWC inN wT kernel stride pad⟩

/-- The NHWC→NCHW output transpose node of the Conv branch (creation
order 4), the node registered under the record's output names. -/
def convOutNode (st : LoaderState) (o : String) (inN : GNode) (wT : Tensor)
    (kernel stride pad : Int) : GNode :=
  ⟨st.g.nextId + 4, o, .transpose (st.g.nextId + 3) NHWC2NCHW,
    permDims (convOutDimsNHWC inN wT kernel stride pad) NHWC2NCHW⟩

/-- Full description of the Conv branch on a two-input record whose input
resolves to an already-cached node and whose weight name is registered. -/
theorem loadConv_spec2 (st : LoaderState) (i w o : String) (inN : GNode)
    (wT : Tensor) (kernel stride pad : Int)
    (hi : st.nodeByName i = some inN) (hw : st.tensors w = some wT) :
    loadOperator st (convRecord2 i w o kernel stride pad) =
      .ok { st with
        g := ⟨st.g.nodes ++ [convFilterNode st wT] ++
          [convBiasNode st wT
            (List.replicate ((wT.transpose [0, 2, 3, 1]).dims.headD 0) 0)] ++
          [convTrNode st o inN] ++
          [convMainNode st o inN wT (toI32 kernel) (toI32 stride)
            (toI32 pad)] ++
          [convOutNode st o inN wT (toI32 kernel) (toI32 stride) (toI32 pad)],
          st.g.nextId + 5⟩,
        nodeByName := registerOutputs st.nodeByName [o]
          (convOutNode st o inN wT (toI32 kernel) (toI32 stride)
            (toI32 pad)) } := by
  have r1 : getOrCreateNodeByName st i = .ok (inN, st) := by
    unfold getOrCreateNodeByName; rw [hi]
  have r2 : getTensorByName st w = .ok wT := by
    unfold getTensorByName; rw [hw]
  unfold loadOperator loadConv
  rw [show opInput (convRecord2 i w o kernel stride pad) 0 =
    Except.ok (ε := LoadErr) i from rfl]
  rw [show opInput (convRecord2 i w o kernel stride pad) 1 =
    Except.ok (ε := LoadErr) w from rfl]
  simp only [exceptBindOk]
  rw [r1]
  simp only [exceptBindOk]
  rw [r2]
  simp only [exceptBindOk]
  rfl

/-- Full description of the Conv branch on a three-input record whose third
input names a registered tensor: the bias payload is that tensor's data. -/
theorem loadConv_spec3 (st : LoaderState) (i w o b : String) (inN : GNode)
    (wT bT : Tensor) (kernel stride pad : Int)
    (hi : st.nodeByName i = some inN) (hw : st.tensors w = some wT)
    (hb : st.tensors b = some bT) :
    loadOperator st (convRecord3 i w o b kernel stride pad) =
      .ok { st with
        g := ⟨st.g.nodes ++ [convFilterNode st wT] ++
          [convBiasNode st wT bT.data] ++
          [convTrNode st o inN] ++
          [convMainNode st o inN wT (toI32 kernel) (toI32 stride)
            (toI32 pad)] ++
          [convOutNode st o inN wT (toI32 kernel) (toI32 stride) (toI32 pad)],
          st.g.nextId + 5⟩,
        nodeByName := registerOutputs st.nodeByName [o]
          (convOutNode st o inN wT (toI32 kernel) (toI32 stride)
            (toI32 pad)) } := by
  have r1 : getOrCreateNodeByName st i = .ok (inN, st) := by
    unfold getOrCreateNodeByName; rw [hi]
  have r2 : getTensorByName st w = .ok wT := by
    unfold getTensorByName; rw [hw]
  unfold loadOperator loadConv
  rw [show opInput (convRecord3 i w o b kernel stride pad) 0 =
    Except.ok (ε := LoadErr) i from rfl]
  rw [show opInput (convRecord3 i w o b kernel stride pad) 1 =
    Except.ok (ε := LoadErr) w from rfl]
  rw [show opInput (convRecord3 i w o b kernel stride pad) 2 =
    Except.ok (ε := LoadErr) b from rfl]
  simp only [exceptBindOk]
  rw [r1]
  simp only [exceptBindOk]
  rw [r2]
  simp only [exceptBindOk]
  rw [hb]
  rfl

/-- C6: for every Convolution lowering (input node of dims [n,c,h,w2] and
rank-4 weight tensor), each output spatial dimension of the registered output
node follows the formula (in + 2·pad − kernel)/stride + 1, with the
output-channel count taken from the weight tensor's first dimension.
`calculateConvOutputDims` itself is declared outside src/ and is modelled
from the spec's formula. -/
theorem c6_conv_output_dims (st : LoaderState) (i w o : String) (inN : GNode)
    (wT : Tensor) (n c h w2 oc c2 kh kw kernel stride pad : Nat)
    (hi : st.nodeByName i = some inN) (hdims : inN.dims = [n, c, h, w2])
    (hw : st.tensors w = some wT) (hwd : wT.dims = [oc, c2, kh, kw])
    (hk : kernel < 2 ^ 31) (hs : stride < 2 ^ 31) (hp : pad < 2 ^ 31) :
    ∃ st2, loadOperator st (convRecord2 i w o kernel stride pad) = .ok st2 ∧
      (st2.nodeByName o).map GNode.dims =
        some [n, oc, (h + 2 * pad - kernel) / stride + 1,
          (w2 + 2 * pad - kernel) / stride + 1] := by
  refine ⟨_, loadConv_spec2 st i w o inN wT kernel stride pad hi hw, ?_⟩
  simp [registerOutputs, convOutNode, convOutDimsNHWC, permDims, NCHW2NHWC,
    NHWC2NCHW, calculateConvOutputDims, hdims, hwd, Tensor.transpose,
    toU32_toI32_coe kernel hk, toSize_toI32_coe stride hs,
    toSize_toI32_coe pad hp]

/-- An already-lowered input node "x" of dims 1x3x10x10 for the concrete
convolution scenarios. -/
def convInNode : GNode :=
  ⟨0, "x", .var .FloatTy .Public .None [], [1, 3, 10, 10]⟩

/-- A 5x3x3x3 weight tensor registered under "w". -/
def convWT : Tensor := ⟨.FloatTy, [5, 3, 3, 3], List.replicate 135 0⟩

/-- State with node "x" cached and weight "w" registered. -/
def convReadySt : LoaderState :=
  { g := ⟨[convInNode], 1⟩,
    tensors := fun n => if n = "w" then some convWT else none,
    nodeByName := fun n => if n = "x" then some convInNode else none,
    reports := [], root := none }

/-- C6 witness: input 10×10 with kernel 3, stride 1, pad 0 yields 8×8, and
with kernel 3, stride 2, pad 1 yields 5×5. -/
theorem c6_conv_output_dims_witness :
    (∃ st2, loadOperator convReadySt (convRecord2 "x" "w" "y" 3 1 0) =
        .ok st2 ∧
      (st2.nodeByName "y").map GNode.dims = some [1, 5, 8, 8]) ∧
    (∃ st2, loadOperator convReadySt (convRecord2 "x" "w" "y" 3 2 1) =
        .ok st2 ∧
      (st2.nodeByName "y").map GNode.dims = some [1, 5, 5, 5]) := by
  constructor
  · have h := c6_conv_output_dims convReadySt "x" "w" "y" convInNode convWT
      1 3 10 10 5 3 3 3 3 1 0 rfl rfl rfl rfl (by norm_num) (by norm_num)
      (by norm_num)
    simpa using h
  · have h := c6_conv_output_dims convReadySt "x" "w" "y" convInNode convWT
      1 3 10 10 5 3 3 3 3 2 1 rfl rfl rfl rfl (by norm_num) (by norm_num)
      (by norm_num)
    simpa using h

/-- A Mul/Add record with broadcast=1 and axis=-1. -/
def mulAddRecord (t i0 i1 o : String) : OperatorDef :=
  { type := t, input := [i0, i1], output := [o],
    arg := [{ name := "broadcast", i := some 1 },
            { name := "axis", i := some (-1) }] }

/-- Full description of the Mul branch with broadcast=1 and axis=-1 on two
cached input nodes. -/
theorem loadMul_spec (st : LoaderState) (i0 i1 o : String) (in0 in1 : GNode)
    (h0 : st.nodeByName i0 = some in0) (h1 : st.nodeByName i1 = some in1) :
    loadOperator st (mulAddRecord "Mul" i0 i1 o) =
      .ok { st with
        g := ⟨st.g.nodes ++
          [⟨st.g.nextId, o, .broadcast in1.id in0.dims
            (sizeDiffToInt in0.dims.length in1.dims.length), in0.dims⟩] ++
          [⟨st.g.nextId + 1, o, .mul in0.id st.g.nextId, in0.dims⟩],
          st.g.nextId + 2⟩,
        nodeByName := registerOutputs st.nodeByName [o]
          ⟨st.g.nextId + 1, o, .mul in0.id st.g.nextId, in0.dims⟩ } := by
  have r0 : getOrCreateNodeByName st i0 = .ok (in0, st) := by
    unfold getOrCreateNodeByName; rw [h0]
  have r1 : getOrCreateNodeByName st i1 = .ok (in1, st) := by
    unfold getOrCreateNodeByName; rw [h1]
  unfold loadOperator loadMulAdd
  rw [show opInput (mulAddRecord "Mul" i0 i1 o) 0 =
    Except.ok (ε := LoadErr) i0 from rfl]
  rw [show opInput (mulAddRecord "Mul" i0 i1 o) 1 =
    Except.ok (ε := LoadErr) i1 from rfl]
  simp only [exceptBindOk]
  rw [r0]
  simp only [exceptBindOk]
  rw [r1]
  simp only [exceptBindOk]
  rfl

/-- Full description of the Add branch with broadcast=1 and axis=-1 on two
cached input nodes. -/
theorem loadAdd_spec (st : LoaderState) (i0 i1 o : String) (in0 in1 : GNode)
    (h0 : st.nodeByName i0 = some in0) (h1 : st.nodeByName i1 = some in1) :
    loadOperator st (mulAddRecord "Add" i0 i1 o) =
      .ok { st with
        g := ⟨st.g.nodes ++
          [⟨st.g.nextId, o, .broadcast in1.id in0.dims
            (sizeDiffToInt in0.dims.length in1.dims.length), in0.dims⟩] ++
          [⟨st.g.nextId + 1, o, .add in0.id st.g.nextId, in0.dims⟩],
          st.g.nextId + 2⟩,
        nodeByName := registerOutputs st.nodeByName [o]
          ⟨st.g.nextId + 1, o, .add in0.id st.g.nextId, in0.dims⟩ } := by
  have r0 : getOrCreateNodeByName st i0 = .ok (in0, st) := by
    unfold getOrCreateNodeByName; rw [h0]
  have r1 : getOrCreateNodeByName st i1 = .ok (in1, st) := by
    unfold getOrCreateNodeByName; rw [h1]
  unfold loadOperator loadMulAdd
  rw [show opInput (mulAddRecord "Add" i0 i1 o) 0 =
    Except.ok (ε := LoadErr) i0 from rfl]
  rw [show opInput (mulAddRecord "Add" i0 i1 o) 1 =
    Except.ok (ε := LoadErr) i1 from rfl]
  simp only [exceptBindOk]
  rw [r0]
  simp only [exceptBindOk]
  rw [r1]
  simp only [exceptBindOk]
  rfl

/-- C7: for every Mul or Add lowering with broadcast=1 and axis=-1, the axis
passed to the broadcast node equals rank(in0) − rank(in1) (within the ranges
where the source's size_t subtraction followed by int conversion is the
mathematical difference). -/
theorem c7_broadcast_axis (st : LoaderState) (t i0 i1 o : String)
    (in0 in1 : GNode) (ht : t = "Mul" ∨ t = "Add")
    (h0 : st.nodeByName i0 = some in0) (h1 : st.nodeByName i1 = some in1)
    (hr : in1.dims.length ≤ in0.dims.length)
    (hbound : in0.dims.length < 2 ^ 31) :
    ∃ st2, loadOperator st (mulAddRecord t i0 i1 o) = .ok st2 ∧
      (st2.g.nodes.drop st.g.nodes.length).head?.map GNode.kind =
        some (.broadcast in1.id in0.dims
          ((in0.dims.length : Int) - (in1.dims.length : Int))) := by
  rcases ht with ht | ht <;> subst ht
  · refine ⟨_, loadMul_spec st i0 i1 o in0 in1 h0 h1, ?_⟩
    simp [List.append_assoc, List.drop_left,
      sizeDiffToInt_eq in0.dims.length in1.dims.length hr hbound]
  · refine ⟨_, loadAdd_spec st i0 i1 o in0 in1 h0 h1, ?_⟩
    simp [List.append_assoc, List.drop_left,
      sizeDiffToInt_eq in0.dims.length in1.dims.length hr hbound]

/-- A cached rank-4 input node "a". -/
def bcastIn0Node : GNode :=
  ⟨0, "a", .var .FloatTy .Public .None [], [2, 3, 4, 5]⟩

/-- A cached rank-2 input node "b". -/
def bcastIn1Node : GNode := ⟨1, "b", .var .FloatTy .Public .None [], [4, 5]⟩

/-- State caching both broadcast inputs. -/
def bcastReadySt : LoaderState :=
  { g := ⟨[bcastIn0Node, bcastIn1Node], 2⟩, tensors := fun _ => none,
    nodeByName := fun n => if n = "a" then some bcastIn0Node
      else if n = "b" then some bcastIn1Node else none,
    reports := [], root := none }

/-- C7 witness: in0 of rank 4 and in1 of rank 2 resolve to broadcast
axis 2. -/
theorem c7_broadcast_axis_witness :
    ∃ st2, loadOperator bcastReadySt (mulAddRecord "Mul" "a" "b" "m") =
        .ok st2 ∧
      (st2.g.nodes.drop bcastReadySt.g.nodes.length).head?.map GNode.kind =
        some (.broadcast 1 [2, 3, 4, 5] 2) := by
  have h := c7_broadcast_axis bcastReadySt "Mul" "a" "b" "m" bcastIn0Node
    bcastIn1Node (.inl rfl) rfl rfl
    (by norm_num [bcastIn0Node, bcastIn1Node]) (by norm_num [bcastIn0Node])
  simpa [bcastIn0Node, bcastIn1Node] using h

/-- C8: for every Convolution lowering the bias variable used by the created
convolution node is a zero vector whose length is the output-channel count
(the first dimension of the transposed weight tensor) when the record
declares only two inputs, and holds the contents of the tensor named by the
third input when a third input is present and registered. -/
theorem c8_conv_bias (st : LoaderState) (i w o b : String) (inN : GNode)
    (wT bT : Tensor) (oc c2 kh kw : Nat) (kernel stride pad : Int)
    (hi : st.nodeByName i = some inN) (hw : st.tensors w = some wT)
    (hwd : wT.dims = [oc, c2, kh, kw]) :
    (∃ st2, loadOperator st (convRecord2 i w o kernel stride pad) = .ok st2 ∧
      st2.g.nodes.drop st.g.nodes.length =
        [convFilterNode st wT, convBiasNode st wT (List.replicate oc 0),
         convTrNode st o inN,
         convMainNode st o inN wT (toI32 kernel) (toI32 stride) (toI32 pad),
         convOutNode st o inN wT (toI32 kernel) (toI32 stride) (toI32 pad)] ∧
      (convBiasNode st wT (List.replicate oc 0)).kind =
        .var .FloatTy .Private .Broadcast (List.replicate oc 0) ∧
      (convBiasNode st wT (List.replicate oc 0)).dims = [oc] ∧
      (wT.transpose [0, 2, 3, 1]).dims.headD 0 = oc ∧
      (convMainNode st o inN wT (toI32 kernel) (toI32 stride)
          (toI32 pad)).kind =
        .conv (convTrNode st o inN).id (convFilterNode st wT).id
          (convBiasNode st wT (List.replicate oc 0)).id
          (toU32 (toI32 kernel)) (toI32 stride) (toI32 pad) 1) ∧
    (st.tensors b = some bT →
      ∃ st2, loadOperator st (convRecord3 i w o b kernel stride pad) =
          .ok st2 ∧
        st2.g.nodes.drop st.g.nodes.length =
          [convFilterNode st wT, convBiasNode st wT bT.data,
           convTrNode st o inN,
           convMainNode st o inN wT (toI32 kernel) (toI32 stride) (toI32 pad),
           convOutNode st o inN wT (toI32 kernel) (toI32 stride)
             (toI32 pad)] ∧
        (convBiasNode st wT bT.data).kind =
          .var .FloatTy .Private .Broadcast bT.data) := by
  constructor
  · refine ⟨_, loadConv_spec2 st i w o inN wT kernel stride pad hi hw,
      ?_, ?_, ?_, ?_, ?_⟩
    · simp [List.append_assoc, List.drop_left, convBiasNode, Tensor.transpose,
        hwd]
    · rfl
    · simp [convBiasNode, Tensor.transpose, hwd, permDims]
    · simp [Tensor.transpose, hwd, permDims]
    · rfl
  · intro hb
    refine ⟨_, loadConv_spec3 st i w o b inN wT bT kernel stride pad hi hw hb,
      ?_, ?_⟩
    · simp [List.append_assoc, List.drop_left]
    · rfl

/-- A length-5 serialized bias tensor registered under "b". -/
def c8BiasT : Tensor := ⟨.FloatTy, [5], [1, 2, 3, 4, 5]⟩

/-- State with node "x" cached and tensors "w" and "b" registered. -/
def c8DemoSt : LoaderState :=
  { g := ⟨[convInNode], 1⟩,
    tensors := fun n => if n = "w" then some convWT
      else if n = "b" then some c8BiasT else none,
    nodeByName := fun n => if n = "x" then some convInNode else none,
    reports := [], root := none }

/-- C8 witness: without a third input the created bias node holds a zero
vector of length 5 (the weight tensor's first dimension); with a registered
third input "b" it holds that tensor's contents. -/
theorem c8_conv_bias_witness :
    (∃ st2, loadOperator c8DemoSt (convRecord2 "x" "w" "y" 3 1 0) = .ok st2 ∧
      convBiasNode c8DemoSt convWT (List.replicate 5 0) ∈ st2.g.nodes) ∧
    (∃ st2, loadOperator c8DemoSt (convRecord3 "x" "w" "y" "b" 3 1 0) =
        .ok st2 ∧
      convBiasNode c8DemoSt convWT c8BiasT.data ∈ st2.g.nodes) := by
  obtain ⟨⟨st2, he, hd, hrest⟩, h3⟩ := c8_conv_bias c8DemoSt "x" "w" "y" "b"
    convInNode convWT c8BiasT 5 3 3 3 3 1 0 rfl rfl rfl
  obtain ⟨st3, he3, hd3, hrest3⟩ := h3 rfl
  constructor
  · refine ⟨st2, he, ?_⟩
    apply List.drop_subset c8DemoSt.g.nodes.length
    rw [hd]
    simp
  · refine ⟨st3, he3, ?_⟩
    apply List.drop_subset c8DemoSt.g.nodes.length
    rw [hd3]
    simp

/-- The last pre-seeded binding of a name ends up in the node-by-name map as
a Public, non-trainable variable node with a copy of the caller's tensor. -/
theorem preseed_find_binding (ps : List (String × Tensor)) (name : String)
    (T : Tensor) :
    ∀ st : LoaderState,
      ps.reverse.find? (fun p => p.1 = name) = some (name, T) →
      ∃ v, (preseed st ps).nodeByName name = some v ∧ v.name = name ∧
        v.kind = .var T.elemKind .Public .None T.data ∧ v.dims = T.dims := by
  induction ps with
  | nil => intro st h; simp at h
  | cons p rest ih =>
    intro st h
    rw [List.reverse_cons, List.find?_append] at h
    rcases hfr : rest.reverse.find? (fun q => q.1 = name) with _ | q
    · rw [hfr, Option.none_or] at h
      have hp : p = (name, T) := by
        rcases hsing : List.find? (fun q => q.1 = name) [p] with _ | q2
        · rw [hsing] at h; exact absurd h (by simp)
        · rw [hsing] at h
          obtain rfl : q2 = (name, T) := by simpa using h
          have hmem := List.mem_of_find?_eq_some hsing
          have := hmem
          simp at this
          exact this.symm
      have hnb : ∀ q ∈ rest, q.1 ≠ name := by
        intro q hq
        have hnone := List.find?_eq_none.mp hfr q (by simpa using hq)
        simpa using hnone
      show ∃ v, (preseed (preseedOne st p) rest).nodeByName name = some v ∧ _
      rw [preseed_nodeByName_of_not_bound rest name (preseedOne st p) hnb]
      subst hp
      refine ⟨⟨st.g.nextId, name,
        .var T.elemKind .Public .None T.data, T.dims⟩, ?_, rfl, rfl, rfl⟩
      show (if name = (name, T).1 then _ else _) = _
      rw [if_pos rfl]
    · rw [hfr] at h
      simp only [Option.or] at h
      obtain rfl : q = (name, T) := by simpa using h
      exact ih (preseedOne st p) hfr

/-- C10: every (name, tensor) pair pre-seeded at construction (taking the
last binding when a name repeats) is registered directly in the node-by-name
map as a Public-visibility, non-trainable variable node holding a copy of the
caller's tensor; pre-seeding never touches the tensor registry; resolving
such a name returns the pre-seeded node with the state unchanged (the
registry is neither consulted nor modified); and the constructor runs
pre-seeding before the weight pass and the compute pass. -/
theorem c10_preseed_nodes (networkDef weightsDef : NetDef)
    (names : List String) (ts : List Tensor) (name : String) (T : Tensor)
    (hlen : names.length = ts.length)
    (hfind : (names.zip ts).reverse.find? (fun p => p.1 = name) =
      some (name, T)) :
    ∃ v, (preseed initState (names.zip ts)).nodeByName name = some v ∧
      v.name = name ∧ v.kind = .var T.elemKind .Public .None T.data ∧
      v.dims = T.dims ∧
      (preseed initState (names.zip ts)).tensors = initState.tensors ∧
      getOrCreateNodeByName (preseed initState (names.zip ts)) name =
        .ok (v, preseed initState (names.zip ts)) ∧
      caffe2ModelLoader networkDef weightsDef names ts =
        (loadWeights (preseed initState (names.zip ts)) weightsDef >>=
          fun s => loadNetwork s networkDef) := by
  obtain ⟨v, hv, hn, hk, hd⟩ :=
    preseed_find_binding (names.zip ts) name T initState hfind
  refine ⟨v, hv, hn, hk, hd, preseed_tensors _ _, ?_, ?_⟩
  · unfold getOrCreateNodeByName; rw [hv]
  · unfold caffe2ModelLoader
    rw [if_pos hlen]

/-- A concrete caller tensor for the pre-seeding witness. -/
def c10T : Tensor := ⟨.FloatTy, [2, 2], [1, 2, 3, 4]⟩

/-- C10 witness: pre-seeding "in" with a 2x2 tensor. -/
theorem c10_preseed_nodes_witness :
    ∃ v, (preseed initState [("in", c10T)]).nodeByName "in" = some v ∧
      v.name = "in" ∧ v.kind = .var c10T.elemKind .Public .None c10T.data ∧
      v.dims = c10T.dims ∧
      (preseed initState [("in", c10T)]).tensors = initState.tensors ∧
      getOrCreateNodeByName (preseed initState [("in", c10T)]) "in" =
        .ok (v, preseed initState [("in", c10T)]) ∧
      caffe2ModelLoader {} {} ["in"] [c10T] =
        (loadWeights (preseed initState [("in", c10T)]) {} >>=
          fun s => loadNetwork s {}) :=
  c10_preseed_nodes {} {} ["in"] [c10T] "in" c10T rfl rfl
